import Mathlib

/-!
Shallow embedding of the XE currency-rate scraper (`app.py`).

Conventions of the embedding:
* Python floats are modelled by exact rationals (`ℚ`); every numeric literal
  of the source in scope here has an exact decimal value, and the plausibility
  window `0.5 < rate < 2.5` is order-preserving under the float rounding of
  such literals, so verdicts agree with the float code on this domain.
  Rationals are built with `mkRat` so that the kernel can evaluate them.
* A parsed HTML document is modelled by what the code observes of it: the
  list of its table rows, each row the list of its cell texts
  (`row.find_all(['td','th'])` with `get_text(strip=True)`), plus the whole
  raw text (`soup.get_text()`).
* The HTTP transport and HTML parser are external capabilities; their
  outcome for one request is an input (`Transport`) to the fetcher, mirroring
  the `try/except` branches of `scrape_xe_rate`.
* `datetime` values are modelled by their proleptic-Gregorian day number
  (days since 1970-01-01, the same total order and day arithmetic).
-/

/-- Numeric value of a list of ASCII digit characters, most significant first. -/
def natOfDigits (ds : List Char) : Nat :=
  ds.foldl (fun n c => 10 * n + (c.toNat - 48)) 0

/-- Substring test: `containsSub needle hay` is `needle in hay` of Python. -/
def containsSub (needle : List Char) : List Char → Bool
  | [] => needle.isEmpty
  | c :: t => needle.isPrefixOf (c :: t) || containsSub needle t

/-- Split a character list at every occurrence of `sep` (Python `str.split(sep)`). -/
def splitOnChar (sep : Char) : List Char → List (List Char)
  | [] => [[]]
  | c :: t =>
    if c = sep then [] :: splitOnChar sep t
    else
      match splitOnChar sep t with
      | [] => [[c]]
      | g :: gs => (c :: g) :: gs

/-- Value `ip.fp` of an integer digit string and a fraction digit string. -/
def ratOfParts (ip fp : List Char) : ℚ :=
  mkRat (natOfDigits ip * 10 ^ fp.length + natOfDigits fp) (10 ^ fp.length)

/-- Value `n * 10 ^ (e - k)` of a mantissa `n` read as `n / 10 ^ k` scaled by
a signed exponent `e`, folded into one `mkRat` so the kernel can evaluate it. -/
def decToRat (n k : Nat) (e : ℤ) : ℚ :=
  if 0 ≤ e - k then mkRat (n * 10 ^ (e - k).toNat) 1 else mkRat n (10 ^ (k - e).toNat)

/-- Exponent suffix of a float literal: empty, or `e`/`E` then an optional
sign and digits. Returns the signed exponent, `none` when malformed. -/
def parseExpPart : List Char → Option ℤ
  | [] => some 0
  | c :: t =>
    if c = 'e' ∨ c = 'E' then
      match t with
      | '+' :: ds => if ds ≠ [] ∧ ds.all Char.isDigit then some (natOfDigits ds) else none
      | '-' :: ds => if ds ≠ [] ∧ ds.all Char.isDigit then some (-(natOfDigits ds : ℤ)) else none
      | ds => if ds ≠ [] ∧ ds.all Char.isDigit then some (natOfDigits ds) else none
    else none

/-- Unsigned decimal literal `d+ | d+. | d+.d+ | .d+` with optional exponent. -/
def parseUnsigned (cs : List Char) : Option ℚ :=
  let p := cs.span Char.isDigit
  match p.2 with
  | '.' :: r2 =>
    let q := r2.span Char.isDigit
    if p.1.isEmpty ∧ q.1.isEmpty then none
    else
      match parseExpPart q.2 with
      | some e =>
        some (decToRat (natOfDigits p.1 * 10 ^ q.1.length + natOfDigits q.1) q.1.length e)
      | none => none
  | r1 =>
    if p.1.isEmpty then none
    else
      match parseExpPart r1 with
      | some e => some (decToRat (natOfDigits p.1) 0 e)
      | none => none

/-- Model of Python `float(s)` restricted to finite decimal literals with an
optional sign and exponent — the forms a rate-table cell can carry.  Returns
`none` where `float` raises `ValueError` (and on the special forms `inf`,
`nan`, underscores, which no rate cell contains). -/
def pyFloat (cs : List Char) : Option ℚ :=
  match cs with
  | '+' :: t => parseUnsigned t
  | '-' :: t => (parseUnsigned t).map Neg.neg
  | _ => parseUnsigned cs

/-- Plausibility window of `app.py`: `0.5 < rate < 2.5` (open interval). -/
def inWindow (r : ℚ) : Prop := mkRat 1 2 < r ∧ r < mkRat 5 2

instance (r : ℚ) : Decidable (inWindow r) := by
  unfold inWindow; infer_instance

/-- Cell text matching of the structured scan:
`'CAD' in text or 'Canadian Dollar' in text`. -/
def isMarkerCell (s : String) : Bool :=
  containsSub "CAD".toList s.toList || containsSub "Canadian Dollar".toList s.toList

/-- Inner loop of the structured scan (`for j in range(i+1, len(cell_text))`):
parse each later cell after stripping commas, accept the first plausible value,
skip cells that do not parse or are implausible. -/
def scanCells : List String → Option ℚ
  | [] => none
  | c :: t =>
    match pyFloat (c.toList.filter (fun ch => ch ≠ ',')) with
    | some r => if inWindow r then some r else scanCells t
    | none => scanCells t

/-- Middle loop of the structured scan (`for i, text in enumerate(cell_text)`):
at each marker cell, scan the cells to its right; on failure continue with the
remaining cells of the row. -/
def scanRow : List String → Option ℚ
  | [] => none
  | c :: t =>
    if isMarkerCell c then
      match scanCells t with
      | some r => some r
      | none => scanRow t
    else scanRow t

/-- Outer loop of the structured scan (`for row in rows`): first row that
yields a value wins; later rows are not scanned (`if cad_rate: break`). -/
def scanRows : List (List String) → Option ℚ
  | [] => none
  | row :: rest =>
    match scanRow row with
    | some r => some r
    | none => scanRows rest

/-- Attempt of the regex tail `[^\d]*(\d+\.\d+)` at one position: the greedy
non-digit run must reach a digit, the maximal digit run must be followed by a
dot and at least one digit; the captured group is the resulting decimal.
`[^\d]*` cannot consume digits, so backtracking never changes this outcome. -/
def decimalAfter (cs : List Char) : Option ℚ :=
  let cs1 := cs.dropWhile (fun c => !c.isDigit)
  let p := cs1.span Char.isDigit
  if p.1.isEmpty then none
  else
    match p.2 with
    | '.' :: r2 =>
      let q := r2.span Char.isDigit
      if q.1.isEmpty then none else some (ratOfParts p.1 q.1)
    | _ => none

/-- Model of `re.search(marker + "[^\d]*(\d+\.\d+)", text)`: try each start
position left to right and return the first captured decimal (Python returns
only the leftmost match). -/
def reSearchDecimal (marker : List Char) : List Char → Option ℚ
  | [] => none
  | c :: t =>
    if marker.isPrefixOf (c :: t) then
      match decimalAfter ((c :: t).drop marker.length) with
      | some r => some r
      | none => reSearchDecimal marker t
    else reSearchDecimal marker t

/-- Loop over the fallback patterns (`for pattern in patterns`): each entry is
the single `re.search` result of one pattern; accept the first plausible one,
an implausible or absent match falls through to the next pattern. -/
def tryPatterns : List (Option ℚ) → Option ℚ
  | [] => none
  | o :: rest =>
    match o with
    | some r => if inWindow r then some r else tryPatterns rest
    | none => tryPatterns rest

/-- Method 2 of `scrape_xe_rate`: only if `'CAD' in text_content`, try the
patterns `CAD[^\d]*(\d+\.\d+)` then `Canadian Dollar[^\d]*(\d+\.\d+)`. -/
def patternFallback (text : String) : Option ℚ :=
  if containsSub "CAD".toList text.toList then
    tryPatterns [reSearchDecimal "CAD".toList text.toList,
                 reSearchDecimal "Canadian Dollar".toList text.toList]
  else none

/-- Whole extraction of `scrape_xe_rate`: structured table scan, then the
pattern fallback when the scan produced nothing.  (The Python guards
`if cad_rate:` test truthiness, which coincides with `Option.isSome` here
because every accepted value exceeds `0.5 > 0`.) -/
def extractRate (doc : List (List String)) (text : String) : Option ℚ :=
  match scanRows doc with
  | some r => some r
  | none => patternFallback text

/-- Normalized outcome record for one date (the result dict of
`scrape_xe_rate`; `error` is `none` when the key is absent). -/
structure FetchResult where
  date : String
  rate : Option ℚ
  status : String
  error : Option String
deriving DecidableEq

/-- Outcome of the external transport + parser for one request, as observed
by the `try/except` structure of `scrape_xe_rate`. -/
inductive Transport where
  | success (doc : List (List String)) (text : String)
  | timeout
  | requestError (msg : String)
  | otherError (msg : String)
deriving DecidableEq

/-- Single-date fetcher `scrape_xe_rate(date_str)`, with the external
transport/parser outcome passed as a value. -/
def scrape_xe_rate (date_str : String) (t : Transport) : FetchResult :=
  match t with
  | .success doc text =>
    match extractRate doc text with
    | some r => ⟨date_str, some r, "success", none⟩
    | none => ⟨date_str, none, "not_found", some "CAD rate not found in page"⟩
  | .timeout => ⟨date_str, none, "error", some "Request timed out"⟩
  | .requestError m => ⟨date_str, none, "error", some m⟩
  | .otherError m => ⟨date_str, none, "error", some ("Parsing error: " ++ m)⟩

/-- Proleptic-Gregorian leap-year rule (as in Python `datetime`). -/
def isLeap (y : ℤ) : Bool := (y % 4 == 0 && y % 100 != 0) || y % 400 == 0

/-- Length of month `m` of year `y` (as validated by `datetime`). -/
def daysInMonth (y m : ℤ) : ℤ :=
  if m = 2 then (if isLeap y then 29 else 28)
  else if m = 4 ∨ m = 6 ∨ m = 9 ∨ m = 11 then 30
  else 31

/-- Day number (days since 1970-01-01) of a civil date, the standard
era-based conversion; `Int` division here is floor division. -/
def daysFromCivil (y m d : ℤ) : ℤ :=
  let y1 := if m ≤ 2 then y - 1 else y
  let era := y1 / 400
  let yoe := y1 - era * 400
  let doy := (153 * (m + (if 2 < m then -3 else 9)) + 2) / 5 + d - 1
  let doe := yoe * 365 + yoe / 4 - yoe / 100 + doy
  era * 146097 + doe - 719468

/-- Civil date `(y, m, d)` of a day number, inverse of `daysFromCivil`. -/
def civilFromDays (z : ℤ) : ℤ × ℤ × ℤ :=
  let z1 := z + 719468
  let era := z1 / 146097
  let doe := z1 - era * 146097
  let yoe := (doe - doe / 1460 + doe / 36524 - doe / 146096) / 365
  let y := yoe + era * 400
  let doy := doe - (365 * yoe + yoe / 4 - yoe / 100)
  let mp := (5 * doy + 2) / 153
  let d := doy - (153 * mp + 2) / 5 + 1
  let m := if mp < 10 then mp + 3 else mp - 9
  (if m ≤ 2 then y + 1 else y, m, d)

/-- Decimal digit character of `n mod 10`. -/
def digitChar (n : Nat) : Char := Char.ofNat (48 + n % 10)

/-- Zero-padded 2-digit field (`%m`, `%d`). -/
def pad2 (n : Nat) : List Char := [digitChar (n / 10), digitChar n]

/-- Unpadded decimal digits of `n`, driven by a fuel bound (at most `n` digit
positions), so the recursion is structural and the kernel can evaluate it. -/
def natDigitsAux : Nat → Nat → List Char
  | 0, _ => []
  | fuel + 1, n => if n = 0 then [] else natDigitsAux fuel (n / 10) ++ [digitChar n]

/-- Decimal digits of `n` with no padding (`"0"` for zero). -/
def natDigits (n : Nat) : List Char :=
  if n = 0 then ['0'] else natDigitsAux n n

/-- Model of `current.strftime('%Y-%m-%d')` on a day number: `%m` and `%d`
zero-pad to two digits, while `%Y` on this platform emits the plain decimal
year with no padding (e.g. "99" for year 99 — year padding of `%Y` is
platform-dependent and unpadded here). -/
def strftimeYmd (z : ℤ) : String :=
  let c := civilFromDays z
  String.mk (natDigits c.1.toNat ++ '-' :: pad2 c.2.1.toNat ++ '-' :: pad2 c.2.2.toNat)

/-- Day field of `%d` in CPython's `_strptime`: the regex
`3[0-1]|[1-2]\d|0[1-9]|[1-9]| [1-9]` — one or two digits, or a blank
followed by a nonzero digit — which the full format must then consume
entirely (a two-digit field above 31 leaves unconverted data, which the
subsequent `1 <= d <= daysInMonth` validation equally rejects). -/
def dayField : List Char → Option ℕ
  | [c] => if c.isDigit then some (natOfDigits [c]) else none
  | [c1, c2] =>
    if c1.isDigit ∧ c2.isDigit then some (natOfDigits [c1, c2])
    else if c1 = ' ' ∧ c2.isDigit ∧ c2 ≠ '0' then some (natOfDigits [c2])
    else none
  | _ => none

/-- Model of `datetime.strptime(s, '%Y-%m-%d')`, returning the day number.
CPython matches `%Y` as exactly four digits (`\d\d\d\d`), `%m` as
`1[0-2]|0[1-9]|[1-9]` (equivalently: one or two digits valued 1..12, with
no unconverted leftover), `%d` per `dayField`, and the `datetime`
constructor then validates `MINYEAR <= y`, `1 <= m <= 12`,
`1 <= d <= daysInMonth` — any failure raises `ValueError`, modelled as
`none`. -/
def strptimeYmd (s : String) : Option ℤ :=
  match splitOnChar '-' s.toList with
  | [ys, ms, ds] =>
    if ys.length = 4 ∧ ys.all Char.isDigit ∧
       ms ≠ [] ∧ ms.length ≤ 2 ∧ ms.all Char.isDigit then
      match dayField ds with
      | some d0 =>
        let y : ℤ := natOfDigits ys
        let m : ℤ := natOfDigits ms
        let d : ℤ := d0
        if 1 ≤ y ∧ 1 ≤ m ∧ m ≤ 12 ∧ 1 ≤ d ∧ d ≤ daysInMonth y m then
          some (daysFromCivil y m d)
        else none
      | none => none
    else none
  | _ => none

/-- Body of the `while current <= end_date` loop of `get_date_range`, driven
by its iteration count (structural recursion so the kernel can evaluate it). -/
def dateRangeLoop : Nat → ℤ → List String
  | 0, _ => []
  | n + 1, current => strftimeYmd current :: dateRangeLoop n (current + 1)

/-- `get_date_range(start_date, end_date)` of `app.py`: the formatted dates
from `start_date` to `end_date` inclusive, one per day, ascending.  The while
loop runs exactly `(end_date + 1 - start_date).toNat` times (zero when
`start_date > end_date`). -/
def get_date_range (start_date end_date : ℤ) : List String :=
  dateRangeLoop (end_date + 1 - start_date).toNat start_date

/-- Response payload of the `/api/scrape` happy path (`jsonify` body). -/
structure ScrapeResponse where
  success : Bool
  results : List FetchResult
  total : Nat
  successful : Nat
deriving DecidableEq

/-- Route handler `scrape_rates` of `/api/scrape`.  The two request fields
are the posted JSON's `start_date`/`end_date` (absent key → `none`, matching
`data.get(...)` returning `None`; Python's `if not s` is also true for the
empty string, which `strptime` rejects as well).  The per-date fetch is
passed in as a function so that the route logic is the object of study;
`Except.error` is a 400 response with that message. -/
def scrape_rates (fetch : String → FetchResult)
    (start_date_str end_date_str : Option String) : Except String ScrapeResponse :=
  match start_date_str, end_date_str with
  | none, _ => .error "Start and end dates are required"
  | _, none => .error "Start and end dates are required"
  | some ss, some es =>
    if ss.isEmpty ∨ es.isEmpty then .error "Start and end dates are required"
    else
      match strptimeYmd ss, strptimeYmd es with
      | some start_date, some end_date =>
        if end_date < start_date then .error "Start date must be before end date"
        else if 90 < end_date - start_date then
          .error "Date range cannot exceed 90 days to prevent rate limiting issues"
        else
          let results := (get_date_range start_date end_date).map fetch
          .ok ⟨true, results, results.length,
               results.countP (fun r => r.status == "success")⟩
      | _, _ => .error "Invalid date format. Use YYYY-MM-DD"

/-- Rate limiter state (`RateLimiter.__init__` fields; `session_start` is
written once and never read).  Times and delays are rational seconds. -/
structure RateLimiter where
  min_delay : ℚ
  max_delay : ℚ
  burst_limit : Nat
  burst_cooldown : ℚ
  request_count : Nat
  last_request_time : ℚ
  session_start : ℚ
deriving DecidableEq

/-- `RateLimiter.wait` as a pure step on the limiter state.  Inputs model the
environment: `draw` is the `random.uniform` sample of whichever branch is
taken, `t1` the value of `time.time()` at the `elapsed` computation (so
`rl.last_request_time ≤ t1`), and `eps ≥ 0` the extra real time between the
end of the (exact) sleep and the second `time.time()`.  Returns the new state
and the chosen `delay`; `last_request_time` of the new state is the instant
at which the call returns. -/
def RateLimiter.wait (rl : RateLimiter) (draw t1 eps : ℚ) : RateLimiter × ℚ :=
  let rc := rl.request_count + 1
  let delay := if rc % rl.burst_limit = 0 then rl.burst_cooldown + draw else draw
  let elapsed := t1 - rl.last_request_time
  let t2 := (if elapsed < delay then t1 + (delay - elapsed) else t1) + eps
  ({ rl with request_count := rc, last_request_time := t2 }, delay)

/-- The global limiter instance of `app.py` (`min_delay=2.5, max_delay=5.0,
burst_limit=5, burst_cooldown=20.0`), at process start
(`request_count=0, last_request_time=0`); the session start instant is a
parameter. -/
def rate_limiter (t0 : ℚ) : RateLimiter :=
  ⟨mkRat 5 2, 5, 5, 20, 0, 0, t0⟩

/-! ### Helper lemmas -/

theorem mkRat_half_eq : mkRat 1 2 = (0.5 : ℚ) := by
  rw [Rat.mkRat_eq_divInt, Rat.divInt_eq_div]; norm_num

theorem mkRat_five_halves_eq : mkRat 5 2 = (2.5 : ℚ) := by
  rw [Rat.mkRat_eq_divInt, Rat.divInt_eq_div]; norm_num

theorem inWindow_iff (r : ℚ) : inWindow r ↔ (0.5 : ℚ) < r ∧ r < 2.5 := by
  rw [inWindow, mkRat_half_eq, mkRat_five_halves_eq]

theorem scanCells_inWindow (cs : List String) (r : ℚ)
    (h : scanCells cs = some r) : inWindow r := by
  induction cs with
  | nil => simp [scanCells] at h
  | cons c t ih =>
    rw [scanCells] at h
    split at h
    · split at h
      · cases h; assumption
      · exact ih h
    · exact ih h

theorem scanRow_inWindow (cs : List String) (r : ℚ)
    (h : scanRow cs = some r) : inWindow r := by
  induction cs with
  | nil => simp [scanRow] at h
  | cons c t ih =>
    rw [scanRow] at h
    split at h
    · split at h
      next v heq => cases h; exact scanCells_inWindow t r heq
      next => exact ih h
    · exact ih h

theorem scanRows_inWindow (rows : List (List String)) (r : ℚ)
    (h : scanRows rows = some r) : inWindow r := by
  induction rows with
  | nil => simp [scanRows] at h
  | cons row rest ih =>
    rw [scanRows] at h
    split at h
    next v heq => cases h; exact scanRow_inWindow row r heq
    next => exact ih h

theorem tryPatterns_inWindow (os : List (Option ℚ)) (r : ℚ)
    (h : tryPatterns os = some r) : inWindow r := by
  induction os with
  | nil => simp [tryPatterns] at h
  | cons o rest ih =>
    cases o with
    | none => rw [tryPatterns] at h; exact ih h
    | some v =>
      rw [tryPatterns] at h
      split at h
      · cases h; assumption
      · exact ih h

theorem patternFallback_inWindow (text : String) (r : ℚ)
    (h : patternFallback text = some r) : inWindow r := by
  rw [patternFallback] at h
  by_cases hc : containsSub "CAD".toList text.toList = true
  · rw [if_pos hc] at h
    exact tryPatterns_inWindow _ r h
  · rw [if_neg hc] at h
    exact Option.noConfusion h

theorem extractRate_inWindow (doc : List (List String)) (text : String) (r : ℚ)
    (h : extractRate doc text = some r) : inWindow r := by
  rw [extractRate] at h
  cases hs : scanRows doc with
  | none => rw [hs] at h; exact patternFallback_inWindow text r h
  | some v =>
    rw [hs] at h
    cases h
    exact scanRows_inWindow doc r hs

theorem scrape_xe_rate_date (d : String) (t : Transport) :
    (scrape_xe_rate d t).date = d := by
  cases t with
  | success doc text =>
    rw [scrape_xe_rate]
    cases extractRate doc text <;> rfl
  | timeout => rfl
  | requestError m => rfl
  | otherError m => rfl

theorem dateRangeLoop_map (n : Nat) : ∀ z : ℤ,
    dateRangeLoop n z = (List.range n).map (fun i : ℕ => strftimeYmd (z + (i : ℤ))) := by
  induction n with
  | zero => intro z; rfl
  | succ m ih =>
    intro z
    rw [dateRangeLoop, ih (z + 1), List.range_succ_eq_map, List.map_cons, List.map_map]
    congr 1
    · norm_num
    · apply List.map_congr_left
      intro i _
      show strftimeYmd (z + 1 + (i : ℤ)) = strftimeYmd (z + ((i + 1 : ℕ) : ℤ))
      congr 1
      push_cast
      ring

theorem get_date_range_eq (sd ed : ℤ) :
    get_date_range sd ed
      = (List.range (ed + 1 - sd).toNat).map (fun i : ℕ => strftimeYmd (sd + (i : ℤ))) :=
  dateRangeLoop_map _ sd

theorem get_date_range_length (sd ed : ℤ) (h : sd ≤ ed) :
    ((get_date_range sd ed).length : ℤ) = ed - sd + 1 := by
  rw [get_date_range_eq, List.length_map, List.length_range]
  omega

theorem strptimeYmd_ne_empty (s : String) (z : ℤ) (h : strptimeYmd s = some z) :
    s.isEmpty = false := by
  by_contra hne
  have hempty : s = "" := by
    rw [← String.isEmpty_iff]
    revert hne
    cases s.isEmpty <;> simp
  rw [hempty, show strptimeYmd "" = none from rfl] at h
  exact Option.noConfusion h

theorem scrape_rates_ok (f : String → FetchResult) (ss es : String) (sd ed : ℤ)
    (hs : strptimeYmd ss = some sd) (he : strptimeYmd es = some ed)
    (hle : sd ≤ ed) (hspan : ed - sd ≤ 90) :
    scrape_rates f (some ss) (some es)
      = .ok ⟨true, (get_date_range sd ed).map f, ((get_date_range sd ed).map f).length,
            ((get_date_range sd ed).map f).countP (fun r => r.status == "success")⟩ := by
  have hss := strptimeYmd_ne_empty ss sd hs
  have hes := strptimeYmd_ne_empty es ed he
  rw [scrape_rates]
  simp only [hss, hes, hs, he, Bool.false_eq_true, or_self, if_false]
  rw [if_neg (by omega), if_neg (by omega)]

theorem reSearchDecimal_contains (m : List Char) (cs : List Char) (v : ℚ)
    (h : reSearchDecimal m cs = some v) : containsSub m cs = true := by
  induction cs with
  | nil => simp [reSearchDecimal] at h
  | cons c t ih =>
    rw [reSearchDecimal] at h
    split at h
    next hp => simp [containsSub, hp]
    next hp => simp [containsSub, ih h]

theorem scanRows_append (rows1 : List (List String)) (row : List String)
    (rows2 : List (List String)) (v : ℚ)
    (h1 : scanRows rows1 = none) (h2 : scanRow row = some v) :
    scanRows (rows1 ++ row :: rows2) = some v := by
  induction rows1 with
  | nil => rw [List.nil_append, scanRows, h2]
  | cons r t ih =>
    rw [List.cons_append, scanRows]
    rw [scanRows] at h1
    split at h1
    next heq => exact Option.noConfusion h1
    next heq => exact ih h1

theorem scanRow_marker (pre : List String) (c : String) (post : List String) (v : ℚ)
    (hpre : ∀ x ∈ pre, isMarkerCell x = false) (hc : isMarkerCell c = true)
    (hcells : scanCells post = some v) :
    scanRow (pre ++ c :: post) = some v := by
  induction pre with
  | nil => rw [List.nil_append, scanRow, if_pos hc, hcells]
  | cons x t ih =>
    rw [List.cons_append, scanRow, if_neg]
    · exact ih (fun y hy => hpre y (List.mem_cons_of_mem x hy))
    · simp [hpre x (List.mem_cons_self x t)]

theorem scanCells_append (cs1 : List String) (c : String) (cs2 : List String) (v : ℚ)
    (h1 : scanCells cs1 = none)
    (hparse : pyFloat (c.toList.filter (fun ch => ch ≠ ',')) = some v)
    (hv : inWindow v) :
    scanCells (cs1 ++ c :: cs2) = some v := by
  induction cs1 with
  | nil => rw [List.nil_append, scanCells, hparse]; exact if_pos hv
  | cons x t ih =>
    rw [List.cons_append, scanCells]
    rw [scanCells] at h1
    split at h1
    · split at h1
      next hpl => exact Option.noConfusion h1
      next hpl => rw [if_neg hpl]; exact ih h1
    · exact ih h1

theorem extractRate_of_scanRows_some (doc : List (List String)) (text : String) (v : ℚ)
    (h : scanRows doc = some v) : extractRate doc text = some v := by
  rw [extractRate, h]

theorem extractRate_of_scanRows_none (doc : List (List String)) (text : String)
    (h : scanRows doc = none) : extractRate doc text = patternFallback text := by
  rw [extractRate, h]

theorem patternFallback_skips_first_pattern (text : String) (v : ℚ)
    (h : reSearchDecimal "CAD".toList text.toList = some v) (hv : ¬ inWindow v) :
    patternFallback text
      = tryPatterns [reSearchDecimal "Canadian Dollar".toList text.toList] := by
  rw [patternFallback, if_pos (reSearchDecimal_contains _ _ _ h), h, tryPatterns,
      if_neg hv]

/-! ### Claim theorems -/

/-- Claim C2: the rate extractor accepts a candidate decimal only if it lies
in the open interval (0.5, 2.5); a parsed value outside it — such as 150.0
next to a currency marker — is rejected by both the structured scan and the
pattern fallback and can never be the returned rate. -/
theorem claim_C2_plausibility_filter :
    (∀ (doc : List (List String)) (text : String) (r : ℚ),
        extractRate doc text = some r → (0.5 : ℚ) < r ∧ r < 2.5) ∧
    scanRows [["CAD", "150.0"]] = none ∧
    patternFallback "CAD 150.0" = none ∧
    extractRate [["CAD", "150.0"]] "CAD 150.0" = none := by
  refine ⟨fun doc text r h => ?_, by decide, by decide, by decide⟩
  exact (inWindow_iff r).mp (extractRate_inWindow doc text r h)

/-- Witness for C2 at a concrete accepted value 1.25. -/
theorem claim_C2_plausibility_filter_witness :
    (0.5 : ℚ) < mkRat 125 100 ∧ (mkRat 125 100 : ℚ) < 2.5 :=
  claim_C2_plausibility_filter.1 [["CAD", "1.25"]] "" (mkRat 125 100) (by decide)

/-- Claim C3: the structured scan visits rows in document order and stops at
the first row that yields a value; within a row, after a cell containing
"CAD" or "Canadian Dollar", the following cells are parsed left-to-right
(commas stripped) and the first plausible value is accepted; a row
["CAD", "1.3612"] yields 1.3612 (= 13612/10000). -/
theorem claim_C3_structured_scan :
    (∀ (rows1 : List (List String)) (row : List String)
        (rows2 : List (List String)) (v : ℚ),
        scanRows rows1 = none → scanRow row = some v →
        scanRows (rows1 ++ row :: rows2) = some v) ∧
    (∀ (pre : List String) (c : String) (post : List String) (v : ℚ),
        (∀ x ∈ pre, isMarkerCell x = false) → isMarkerCell c = true →
        scanCells post = some v → scanRow (pre ++ c :: post) = some v) ∧
    (∀ (cs1 : List String) (c : String) (cs2 : List String) (v : ℚ),
        scanCells cs1 = none →
        pyFloat (c.toList.filter (fun ch => ch ≠ ',')) = some v →
        inWindow v → scanCells (cs1 ++ c :: cs2) = some v) ∧
    extractRate [["CAD", "1.3612"]] "" = some (mkRat 13612 10000) :=
  ⟨scanRows_append, scanRow_marker, scanCells_append, by decide⟩

/-- Witness for C3: a CAD row after a non-CAD row is accepted and a later row
is not consulted. -/
theorem claim_C3_structured_scan_witness :
    scanRows ([["USD", "77"]] ++ ["CAD", "1.3612"] :: [["x", "1.99"]])
      = some (mkRat 13612 10000) :=
  claim_C3_structured_scan.1 [["USD", "77"]] ["CAD", "1.3612"] [["x", "1.99"]]
    (mkRat 13612 10000) (by decide) (by decide)

/-- Claim C4: the pattern fallback runs only when the structured scan found
no value; it requires the raw text to contain the currency code, tries the
patterns "CAD ... decimal" then "Canadian Dollar ... decimal" in order, and
raw text containing "CAD 1.29" with no structured CAD row yields 1.29. -/
theorem claim_C4_pattern_fallback :
    (∀ (doc : List (List String)) (text : String) (v : ℚ),
        scanRows doc = some v → extractRate doc text = some v) ∧
    (∀ (doc : List (List String)) (text : String),
        scanRows doc = none → extractRate doc text = patternFallback text) ∧
    (∀ text : String, containsSub "CAD".toList text.toList = false →
        patternFallback text = none) ∧
    (∀ text : String, containsSub "CAD".toList text.toList = true →
        patternFallback text
          = tryPatterns [reSearchDecimal "CAD".toList text.toList,
                         reSearchDecimal "Canadian Dollar".toList text.toList]) ∧
    extractRate [] "USD to CAD 1.29 as of today" = some (mkRat 129 100) := by
  refine ⟨extractRate_of_scanRows_some, extractRate_of_scanRows_none,
          fun text h => ?_, fun text h => ?_, by decide⟩
  · rw [patternFallback, h]; rfl
  · rw [patternFallback, if_pos h]

/-- Witness for C4: with a document whose rows carry no CAD marker, the
extractor result is exactly the pattern fallback result. -/
theorem claim_C4_pattern_fallback_witness :
    extractRate [["EUR", "0.9"]] "USD to CAD 1.29 as of today"
      = patternFallback "USD to CAD 1.29 as of today" :=
  claim_C4_pattern_fallback.2.1 [["EUR", "0.9"]] "USD to CAD 1.29 as of today" (by decide)

/-- Counterexample to Claim C7 as stated: on an extraction miss the code sets
the error message "CAD rate not found in page", which is not the claimed
"rate not found in page". -/
theorem claim_C7_counterexample :
    scrape_xe_rate "2024-01-01" (.success [] "nothing here")
      = ⟨"2024-01-01", none, "not_found", some "CAD rate not found in page"⟩ ∧
    "CAD rate not found in page" ≠ "rate not found in page" :=
  ⟨by decide, by decide⟩

/-- Claim C7 (amended): when the fetch succeeds but extraction returns no
value, the fetcher produces status `not_found`, no rate, and error
"CAD rate not found in page". -/
theorem claim_C7_not_found_result (d : String) (doc : List (List String))
    (text : String) (h : extractRate doc text = none) :
    scrape_xe_rate d (.success doc text)
      = ⟨d, none, "not_found", some "CAD rate not found in page"⟩ := by
  rw [scrape_xe_rate, h]

/-- Witness for the amended C7 at a concrete document with no CAD data. -/
theorem claim_C7_not_found_result_witness :
    scrape_xe_rate "2024-01-01" (.success [["USD", "1.00"]] "no currency tables today")
      = ⟨"2024-01-01", none, "not_found", some "CAD rate not found in page"⟩ :=
  claim_C7_not_found_result "2024-01-01" [["USD", "1.00"]]
    "no currency tables today" (by decide)

/-- Counterexample to Claim C8 as stated: on a transport timeout the code
sets "Request timed out" (capital R), not the claimed "request timed out",
and the unexpected-failure prefix is "Parsing error: ", not "parsing error: ". -/
theorem claim_C8_counterexample :
    scrape_xe_rate "2024-01-01" .timeout
      = ⟨"2024-01-01", none, "error", some "Request timed out"⟩ ∧
    "Request timed out" ≠ "request timed out" ∧
    "Parsing error: boom" ≠ "parsing error: boom" :=
  ⟨by decide, by decide, by decide⟩

/-- Claim C8 (amended): a timeout yields status `error` with message
"Request timed out"; any other transport failure yields status `error` with
the transport's message; an unexpected failure while interpreting the
document yields status `error` with "Parsing error: " and the message — in
every case captured in that date's FetchResult. -/
theorem claim_C8_error_results (d m : String) :
    scrape_xe_rate d .timeout = ⟨d, none, "error", some "Request timed out"⟩ ∧
    scrape_xe_rate d (.requestError m) = ⟨d, none, "error", some m⟩ ∧
    scrape_xe_rate d (.otherError m)
      = ⟨d, none, "error", some ("Parsing error: " ++ m)⟩ :=
  ⟨rfl, rfl, rfl⟩

/-- Claim C9: in every FetchResult of the single-date fetcher, the rate is
present exactly when the status is "success", and every present rate lies
strictly between 0.5 and 2.5. -/
theorem claim_C9_fetchresult_invariant (d : String) (t : Transport) :
    ((scrape_xe_rate d t).rate.isSome ↔ (scrape_xe_rate d t).status = "success") ∧
    ∀ r : ℚ, (scrape_xe_rate d t).rate = some r → (0.5 : ℚ) < r ∧ r < 2.5 := by
  cases t with
  | success doc text =>
    rw [scrape_xe_rate]
    cases hx : extractRate doc text with
    | some v =>
      refine ⟨by simp, fun r hr => ?_⟩
      simp only [Option.some.injEq] at hr
      subst hr
      exact (inWindow_iff v).mp (extractRate_inWindow doc text v hx)
    | none => exact ⟨by simp, fun r hr => by simp at hr⟩
  | timeout => exact ⟨by simp [scrape_xe_rate], fun r hr => by simp [scrape_xe_rate] at hr⟩
  | requestError m =>
    exact ⟨by simp [scrape_xe_rate], fun r hr => by simp [scrape_xe_rate] at hr⟩
  | otherError m =>
    exact ⟨by simp [scrape_xe_rate], fun r hr => by simp [scrape_xe_rate] at hr⟩

/-- Witness for C9 at a concrete successful extraction. -/
theorem claim_C9_fetchresult_invariant_witness :
    (0.5 : ℚ) < mkRat 13612 10000 ∧ (mkRat 13612 10000 : ℚ) < 2.5 :=
  (claim_C9_fetchresult_invariant "2024-01-02" (.success [["CAD", "1.3612"]] "")).2
    (mkRat 13612 10000) (by decide)

/-- Claim C10: only the first regex match of each fallback pattern counts:
when the first "CAD ... decimal" match is implausible, the fallback moves to
the "Canadian Dollar" pattern (or returns none) and never to a later
occurrence of the "CAD" pattern, even a plausible one. -/
theorem claim_C10_first_match_only :
    (∀ (text : String) (v : ℚ),
        reSearchDecimal "CAD".toList text.toList = some v → ¬ inWindow v →
        patternFallback text
          = tryPatterns [reSearchDecimal "Canadian Dollar".toList text.toList]) ∧
    reSearchDecimal "CAD".toList "CAD 150.12 then CAD 1.29".toList
      = some (mkRat 15012 100) ∧
    inWindow (mkRat 129 100) ∧
    ¬ inWindow (mkRat 15012 100) ∧
    patternFallback "CAD 150.12 then CAD 1.29" = none :=
  ⟨patternFallback_skips_first_pattern, by decide, by decide, by decide, by decide⟩

/-- Witness for C10: with an implausible first CAD match, the fallback result
is exactly the second pattern's search result. -/
theorem claim_C10_first_match_only_witness :
    patternFallback "CAD 150.12 x Canadian Dollar 1.40"
      = tryPatterns [reSearchDecimal "Canadian Dollar".toList
          "CAD 150.12 x Canadian Dollar 1.40".toList] :=
  claim_C10_first_match_only.1 "CAD 150.12 x Canadian Dollar 1.40"
    (mkRat 15012 100) (by decide) (by decide)

theorem RateLimiter.wait_spec (rl : RateLimiter) (draw t1 eps : ℚ)
    (heps : 0 ≤ eps) :
    (rl.wait draw t1 eps).2
      = (if (rl.request_count + 1) % rl.burst_limit = 0
         then rl.burst_cooldown + draw else draw) ∧
    (rl.wait draw t1 eps).2
      ≤ (rl.wait draw t1 eps).1.last_request_time - rl.last_request_time := by
  unfold RateLimiter.wait
  dsimp only
  refine ⟨rfl, ?_⟩
  by_cases hlt : t1 - rl.last_request_time
      < (if (rl.request_count + 1) % rl.burst_limit = 0
         then rl.burst_cooldown + draw else draw)
  · rw [if_pos hlt]
    linarith
  · rw [if_neg hlt]
    push_neg at hlt
    linarith

/-- Claim C1: for a valid range (start ≤ end, span ≤ 90 days) the
`/api/scrape` handler invokes the single-date fetcher once per calendar day
from start to end inclusive and returns exactly end − start + 1 results, one
per day, in ascending date order. -/
theorem claim_C1_range_driver (ss es : String) (sd ed : ℤ)
    (oracle : String → Transport)
    (hs : strptimeYmd ss = some sd) (he : strptimeYmd es = some ed)
    (hle : sd ≤ ed) (hspan : ed - sd ≤ 90) :
    ∃ resp : ScrapeResponse,
      scrape_rates (fun d => scrape_xe_rate d (oracle d)) (some ss) (some es)
        = .ok resp ∧
      resp.results
        = (get_date_range sd ed).map (fun d => scrape_xe_rate d (oracle d)) ∧
      (resp.results.length : ℤ) = ed - sd + 1 ∧
      resp.results.map FetchResult.date
        = (List.range (ed + 1 - sd).toNat).map
            (fun i : ℕ => strftimeYmd (sd + (i : ℤ))) ∧
      List.Pairwise (fun a b : ℤ => a < b)
        ((List.range (ed + 1 - sd).toNat).map (fun i : ℕ => sd + (i : ℤ))) := by
  refine ⟨_, scrape_rates_ok _ ss es sd ed hs he hle hspan, rfl, ?_, ?_, ?_⟩
  · rw [List.length_map]
    exact get_date_range_length sd ed hle
  · rw [List.map_map]
    have hdates : (get_date_range sd ed).map
        (FetchResult.date ∘ fun d => scrape_xe_rate d (oracle d))
        = get_date_range sd ed := by
      rw [show FetchResult.date ∘ (fun d => scrape_xe_rate d (oracle d))
            = fun d => (scrape_xe_rate d (oracle d)).date from rfl]
      rw [List.map_congr_left (fun d _ => scrape_xe_rate_date d (oracle d))]
      exact List.map_id _
    rw [hdates, get_date_range_eq]
  · refine List.Pairwise.map _ (fun a b hab => ?_) (List.pairwise_lt_range _)
    omega

/-- Witness for C1: a concrete three-day range, with every transport call
timing out. -/
theorem claim_C1_range_driver_witness :
    ∃ resp : ScrapeResponse,
      scrape_rates (fun d => scrape_xe_rate d Transport.timeout)
          (some "2024-01-01") (some "2024-01-03")
        = .ok resp ∧
      resp.results
        = (get_date_range 19723 19725).map
            (fun d => scrape_xe_rate d Transport.timeout) ∧
      (resp.results.length : ℤ) = 19725 - 19723 + 1 ∧
      resp.results.map FetchResult.date
        = (List.range (19725 + 1 - 19723 : ℤ).toNat).map
            (fun i : ℕ => strftimeYmd (19723 + (i : ℤ))) ∧
      List.Pairwise (fun a b : ℤ => a < b)
        ((List.range (19725 + 1 - 19723 : ℤ).toNat).map
          (fun i : ℕ => (19723 : ℤ) + (i : ℤ))) :=
  claim_C1_range_driver "2024-01-01" "2024-01-03" 19723 19725
    (fun _ => Transport.timeout) (by decide) (by decide) (by decide) (by decide)

/-- Claim C6: a range request with a missing date, an unparseable date, start
after end, or span over 90 days is rejected with a validation error, and no
fetch occurs: the handler's outcome is one fixed error response whatever the
fetcher does (the fetcher — and with it the pacing controller it starts
with — is never consulted). -/
theorem claim_C6_boundary_validation (ss es : Option String)
    (h : ss = none ∨ es = none ∨
         (∃ a b, ss = some a ∧ es = some b ∧
           (strptimeYmd a = none ∨ strptimeYmd b = none ∨
            ∃ sd ed, strptimeYmd a = some sd ∧ strptimeYmd b = some ed ∧
              (ed < sd ∨ 90 < ed - sd)))) :
    ∃ e : String, ∀ fetch : String → FetchResult,
      scrape_rates fetch ss es = .error e := by
  rcases h with h | h | ⟨a, b, ha, hb, hab⟩
  · subst h
    refine ⟨"Start and end dates are required", fun fetch => ?_⟩
    cases es <;> rfl
  · subst h
    refine ⟨"Start and end dates are required", fun fetch => ?_⟩
    cases ss <;> rfl
  · subst ha
    subst hb
    by_cases hempty : a.isEmpty ∨ b.isEmpty
    · exact ⟨"Start and end dates are required",
        fun fetch => by rw [scrape_rates, if_pos (by simpa using hempty)]⟩
    · rcases hab with hpa | hpb | ⟨sd, ed, hsd, hed, hrange⟩
      · refine ⟨"Invalid date format. Use YYYY-MM-DD", fun fetch => ?_⟩
        rw [scrape_rates, if_neg (by simpa using hempty), hpa]
      · refine ⟨"Invalid date format. Use YYYY-MM-DD", fun fetch => ?_⟩
        rw [scrape_rates, if_neg (by simpa using hempty), hpb]
        all_goals cases hp : strptimeYmd a <;> rfl
      · rcases hrange with hlt | hspan
        · refine ⟨"Start date must be before end date", fun fetch => ?_⟩
          rw [scrape_rates, if_neg (by simpa using hempty), hsd, hed]
          exact if_pos hlt
        · refine ⟨"Date range cannot exceed 90 days to prevent rate limiting issues",
            fun fetch => ?_⟩
          rw [scrape_rates, if_neg (by simpa using hempty), hsd, hed]
          exact (if_neg (by omega : ¬ ed < sd)).trans (if_pos hspan)

/-- Witness for C6: a request whose start date is after its end date. -/
theorem claim_C6_boundary_validation_witness :
    ∃ e : String, ∀ fetch : String → FetchResult,
      scrape_rates fetch (some "2024-01-05") (some "2024-01-03") = .error e :=
  claim_C6_boundary_validation (some "2024-01-05") (some "2024-01-03")
    (Or.inr (Or.inr ⟨"2024-01-05", "2024-01-03", rfl, rfl,
      Or.inr (Or.inr ⟨19727, 19725, by decide, by decide, Or.inl (by decide)⟩)⟩))

/-- Claim C5: with the global limiter's configuration (minDelay 2.5s,
maxDelay 5.0s, burst limit 5, burst cooldown 20s), consecutive `wait`
returns are at least minDelay of real time apart; on every call whose
incremented request count is a multiple of 5 the chosen delay is
20s + jitter (jitter in [0, 5]) and at least 20s of real time elapses;
on every other call the chosen delay is the uniform draw from
[minDelay, maxDelay]. -/
theorem claim_C5_rate_limiter_pacing (rl : RateLimiter) (draw t1 eps : ℚ)
    (hmin : rl.min_delay = (rate_limiter 0).min_delay)
    (_hmax : rl.max_delay = (rate_limiter 0).max_delay)
    (hbl : rl.burst_limit = (rate_limiter 0).burst_limit)
    (hbc : rl.burst_cooldown = (rate_limiter 0).burst_cooldown)
    (_ht : rl.last_request_time ≤ t1) (heps : 0 ≤ eps)
    (hburst : (rl.request_count + 1) % 5 = 0 → 0 ≤ draw ∧ draw ≤ 5)
    (hnorm : (rl.request_count + 1) % 5 ≠ 0 →
      rl.min_delay ≤ draw ∧ draw ≤ rl.max_delay) :
    rl.min_delay
      ≤ (rl.wait draw t1 eps).1.last_request_time - rl.last_request_time ∧
    ((rl.request_count + 1) % 5 = 0 →
      (rl.wait draw t1 eps).2 = rl.burst_cooldown + draw ∧
      rl.burst_cooldown
        ≤ (rl.wait draw t1 eps).1.last_request_time - rl.last_request_time) ∧
    ((rl.request_count + 1) % 5 ≠ 0 →
      (rl.wait draw t1 eps).2 = draw ∧
      rl.min_delay ≤ (rl.wait draw t1 eps).2 ∧
      (rl.wait draw t1 eps).2 ≤ rl.max_delay) := by
  simp only [rate_limiter] at hmin hbl hbc
  obtain ⟨hdelay, hge⟩ := RateLimiter.wait_spec rl draw t1 eps heps
  rw [hbl] at hdelay
  by_cases hb : (rl.request_count + 1) % 5 = 0
  · rw [if_pos hb] at hdelay
    obtain ⟨h0, h5⟩ := hburst hb
    have h20 : rl.burst_cooldown ≤ (rl.wait draw t1 eps).2 := by
      rw [hdelay]; linarith
    refine ⟨?_, fun _ => ⟨hdelay, by linarith⟩, fun hc => absurd hb hc⟩
    have : mkRat 5 2 ≤ (20 : ℚ) := by
      rw [mkRat_five_halves_eq]; norm_num
    rw [hmin, hbc] at *
    linarith
  · rw [if_neg hb] at hdelay
    obtain ⟨hlo, hhi⟩ := hnorm hb
    refine ⟨by rw [hdelay] at hge; linarith, fun hc => absurd hc hb,
            fun _ => ⟨hdelay, by rw [hdelay]; exact hlo, by rw [hdelay]; exact hhi⟩⟩

/-- Witness for C5: the global limiter at process start, first call, draw 3,
called at time 0 with no scheduling slack. -/
theorem claim_C5_rate_limiter_pacing_witness :
    (rate_limiter 0).min_delay
      ≤ ((rate_limiter 0).wait 3 0 0).1.last_request_time
          - (rate_limiter 0).last_request_time ∧
    (((rate_limiter 0).request_count + 1) % 5 = 0 →
      ((rate_limiter 0).wait 3 0 0).2 = (rate_limiter 0).burst_cooldown + 3 ∧
      (rate_limiter 0).burst_cooldown
        ≤ ((rate_limiter 0).wait 3 0 0).1.last_request_time
            - (rate_limiter 0).last_request_time) ∧
    (((rate_limiter 0).request_count + 1) % 5 ≠ 0 →
      ((rate_limiter 0).wait 3 0 0).2 = 3 ∧
      (rate_limiter 0).min_delay ≤ ((rate_limiter 0).wait 3 0 0).2 ∧
      ((rate_limiter 0).wait 3 0 0).2 ≤ (rate_limiter 0).max_delay) :=
  claim_C5_rate_limiter_pacing (rate_limiter 0) 3 0 0 rfl rfl rfl rfl
    (by decide) (by decide) (fun h => absurd h (by decide)) (fun _ => by decide)
